import Mathlib

/-!
Shallow embedding of `src/src/library/rules.c` from the fapolicyd rule
engine: rule parsing (`nv_split`, `assign_subject`, `assign_object`,
`parse_new_format`, `rules_append`), the rule store, directory matching
(`dirs`, `check_dirs`, `obj_dir_test`, `subj_dir_test`), the pattern
detector (`subj_pattern_test`) and the evaluator (`check_access`,
`check_subject`, `check_object`, `rule_evaluate`).

Machine integers are modelled as `Nat`/`Int`; C strings as Lean `String`
(interior NUL bytes do not occur in rule text or paths); `NULL` pointers
as `Option`.  Headers that the repository does not ship (`rules.h`,
`nv.h`, `process.h`, the field dictionary and the attribute accessors)
are modelled from the spec, each marked `Modelled from the spec:` in its
doc comment.
-/

/-- Subject field type codes.  Modelled from the spec: the repository does
not ship `rules.h`/`nv.h`; the spec's data model (§3) lists the numeric
subject fields (uid/auid/gid/session/pid/pattern-code/trust/wildcard all)
and the string subject fields (comm, executable path, executable
directory).  The source relies only on the ordering `type >= COMM` to mean
string-typed, which these codes preserve. -/
def ALL_SUBJ : Nat := 0

def AUID : Nat := 1

def UID : Nat := 2

def GID : Nat := 3

def SESSIONID : Nat := 4

def PID : Nat := 5

def PATTERN : Nat := 6

def SUBJ_TRUST : Nat := 7

def COMM : Nat := 8

def EXE : Nat := 9

def EXE_DIR : Nat := 10

/-- Object field type codes.  Modelled from the spec (§3, §4.4): object
fields are the wildcard, path, directory, device, file type, hash and
trust flag. -/
def ALL_OBJ : Nat := 20

def PATH : Nat := 21

def ODIR : Nat := 22

def DEVICE : Nat := 23

def FTYPE : Nat := 24

def SHA256HASH : Nat := 25

def OBJ_TRUST : Nat := 26

/-- rules.c line 41: type code marking an unused rule-field slot. -/
def UNUSED : Nat := 255

/-- Decisions (`decision_t`).  Modelled from the spec (§3): allow/deny with
optional audit/syslog modifiers, plus NO_OPINION for a non-matching rule. -/
inductive Decision where
  | no_opinion
  | allow
  | deny
  | allow_audit
  | deny_audit
  | allow_syslog
  | deny_syslog
  deriving DecidableEq, Repr

/-- Access permissions (`access_t`).  Modelled from the spec (§3):
open / execute / any, default open. -/
inductive Access where
  | open_acc
  | exec_acc
  | any_acc
  deriving DecidableEq, Repr

/-- Rule text dialects (`rformat_t`): original space-separated format or
the colon-separated format (rules.c lines 361-365). -/
inductive RFormat where
  | orig
  | colon
  deriving DecidableEq, Repr

/-- Pattern-classification states of a tracked process.  Modelled from the
spec: `process.h` is not in the repository; §3 lists the states.  Names
`PARTIAL_` and `STATIC_PARTIAL_` carry a trailing underscore; they stand
for the source's STATE_PARTIAL and STATE_STATIC_PARTIAL. -/
inductive State where
  | COLLECTING
  | STATIC_REOPEN
  | PARTIAL_
  | STATIC_PARTIAL_
  | STATIC
  | FULL
  | NOT_ELF
  | LD_SO
  | BAD_ELF
  | NORMAL
  deriving DecidableEq, Repr

/-- Numeric value of each state.  Modelled from the spec: the ordering is
fixed by the source's collection checks (`pinfo->state < STATE_FULL` at
rules.c line 649 guards exactly the states in which fewer than two paths
have been collected, per §4.3), so the collecting-phase states precede
FULL and the post-decision classifications follow it. -/
def State.toNat : State → Nat
  | .COLLECTING => 0
  | .STATIC_REOPEN => 1
  | .PARTIAL_ => 2
  | .STATIC_PARTIAL_ => 3
  | .STATIC => 4
  | .FULL => 5
  | .NOT_ELF => 6
  | .LD_SO => 7
  | .BAD_ELF => 8
  | .NORMAL => 9

/-- Accumulated ELF-analysis flags of one process.  Modelled from the
spec (§3): is-ELF, has-dynamic-segment, has-error; the source reads them
as bits of `pinfo->elf_info` (IS_ELF, HAS_DYNAMIC, HAS_ERROR). -/
structure ElfInfo where
  isElf : Bool
  hasDynamic : Bool
  hasError : Bool
  deriving DecidableEq, Repr

/-- The C test `pinfo->elf_info == 0` (rules.c line 651): no flag set. -/
def elf_info_zero (i : ElfInfo) : Bool :=
  !i.isElf && !i.hasDynamic && !i.hasError

/-- Per-process pattern state (`struct proc_info`).  Modelled from the
spec (§3): up to two observed paths, the ELF flags and the classification
state. -/
structure proc_info where
  state : State
  elf_info : ElfInfo
  path1 : Option String
  path2 : Option String
  deriving DecidableEq, Repr

/-- Modelled from the spec (§4.3/§4.4): `clear_proc_info` (owned by the
process-tracking collaborator) releases the transient path buffers.  The
classification state survives: the source assigns STATE_NOT_ELF and
STATE_BAD_ELF immediately before calling it (rules.c lines 652-653 and
677-678) and relies on those states afterwards. -/
def clear_proc_info (p : proc_info) : proc_info :=
  { p with path1 := none, path2 := none }

/-- A subject rule field or subject event attribute (`subject_attr_t`):
a type code and a union of an integer value and a string. -/
structure subject_attr_t where
  type : Nat
  val : Int
  str : Option String
  deriving DecidableEq, Repr

/-- An object rule field or object event attribute (`object_attr_t`):
a type code, a cached length and a string. -/
structure object_attr_t where
  type : Nat
  len : Nat
  o : Option String
  deriving DecidableEq, Repr

/-- One parsed rule (`lnode`).  The `s_count`/`o_count` bookkeeping of the
source is the length of the `s`/`o` lists; field slots beyond the counts
(type UNUSED in the source) are simply absent. -/
structure lnode where
  format : RFormat
  d : Decision
  a : Access
  s : List subject_attr_t
  o : List object_attr_t
  num : Nat
  deriving DecidableEq, Repr

/-- The rule store (`llist`).  The `head`/`cur` cursor pair of the source
is represented by the list itself; `rules_last` walking to the tail
followed by `l->cur->next = newnode` is appending at the end. -/
structure llist where
  rules : List lnode
  cnt : Nat
  deriving DecidableEq, Repr

/-- One intercepted event (`event_t`).  Modelled from the spec (§6):
`execPerm` is the bit test `e->type & FAN_OPEN_EXEC_PERM`; the attribute
accessors are embodied as association lists; `pinfo` inlines the
subject's `e->s->info` process entry. -/
structure event_t where
  execPerm : Bool
  subjAttrs : List subject_attr_t
  objAttrs : List object_attr_t
  pinfo : proc_info
  deriving DecidableEq, Repr

/-- First byte of a C string: the first character, or NUL at the end of
the string. -/
def cfront (s : String) : Char :=
  s.data.headD (Char.ofNat 0)

/-- C `strncmp(a, b, n) == 0` on NUL-free strings: the first `n`
characters agree, where running off the end of either string stops the
comparison (a NUL mismatches every real character). -/
def cstrncmpEq : List Char → List Char → Nat → Bool
  | _, _, 0 => true
  | [], [], _ + 1 => true
  | [], _ :: _, _ + 1 => false
  | _ :: _, [], _ + 1 => false
  | a :: as, b :: bs, n + 1 => a == b && cstrncmpEq as bs n

/-- String-level wrapper for `strncmp(p, v, n) == 0`. -/
def cstrEqN (p v : String) (n : Nat) : Bool :=
  cstrncmpEq p.data v.data n

/-- C `strchr(ptr, '=')` followed by splitting at that byte
(rules.c lines 309-313): the part before the first `=` and the part
after it, or none when there is no `=`. -/
def splitEqList : List Char → Option (List Char × List Char)
  | [] => none
  | c :: cs =>
    if c = '=' then some ([], cs)
    else
      match splitEqList cs with
      | none => none
      | some (k, v) => some (c :: k, v)

/-- Split a token at its first `=`. -/
def splitEq (s : String) : Option (String × String) :=
  match splitEqList s.data with
  | none => none
  | some (k, v) => some (⟨k⟩, ⟨v⟩)

/-- Accumulating walk behind `strtok_spaces`; `acc` holds the current
token's characters in reverse. -/
def strtok_go : List Char → List Char → List String
  | [], acc => if acc = [] then [] else [⟨acc.reverse⟩]
  | c :: cs, acc =>
    if c = ' ' then
      if acc = [] then strtok_go cs []
      else ⟨acc.reverse⟩ :: strtok_go cs []
    else strtok_go cs (c :: acc)

/-- C `strtok(buf, " ")` iteration: the maximal non-empty chunks of the
line between runs of spaces. -/
def strtok_spaces (s : String) : List String :=
  strtok_go s.data []

/-- Value of the leading decimal-digit run, as computed by
`strtol(ptr2, NULL, 10)` on a string whose first character is a digit
(rules.c line 248).  Overflow (ERANGE) cannot occur with unbounded
integers, so the `errno` branch of the source is unrepresented. -/
def digitsVal : List Char → Int → Int
  | [], acc => acc
  | c :: cs, acc =>
    if c.isDigit then digitsVal cs (acc * 10 + (c.toNat - 48 : Int)) else acc

/-- C `strtol(s, NULL, 10)` under the guard `isdigit(*s)`. -/
def strtol10 (s : String) : Int :=
  digitsVal s.data 0

/-- Modelled from the spec (§6 Field Dictionary): `dec_name_to_val` maps
the decision keywords of §3 to decisions; an unknown keyword is reported
as `-1` by the source, here `none`. -/
def dec_name_to_val (s : String) : Option Decision :=
  if s = "allow" then some .allow
  else if s = "deny" then some .deny
  else if s = "allow_audit" then some .allow_audit
  else if s = "deny_audit" then some .deny_audit
  else if s = "allow_syslog" then some .allow_syslog
  else if s = "deny_syslog" then some .deny_syslog
  else none

/-- Modelled from the spec (§6 Field Dictionary): `subj_name_to_val` maps
subject field names to type codes.  The source passes a dialect argument;
the spec does not distinguish per-dialect name sets, so it is ignored. -/
def subj_name_to_val (s : String) (_fmt : Nat) : Option Nat :=
  if s = "auid" then some AUID
  else if s = "uid" then some UID
  else if s = "gid" then some GID
  else if s = "sessionid" then some SESSIONID
  else if s = "pid" then some PID
  else if s = "pattern" then some PATTERN
  else if s = "trust" then some SUBJ_TRUST
  else if s = "comm" then some COMM
  else if s = "exe" then some EXE
  else if s = "dir" then some EXE_DIR
  else none

/-- Modelled from the spec (§6 Field Dictionary): `obj_name_to_val` maps
object field names to type codes. -/
def obj_name_to_val (s : String) : Option Nat :=
  if s = "path" then some PATH
  else if s = "dir" then some ODIR
  else if s = "device" then some DEVICE
  else if s = "ftype" then some FTYPE
  else if s = "sha256hash" then some SHA256HASH
  else if s = "trust" then some OBJ_TRUST
  else none

/-- Modelled from the spec (§6 Attribute accessors): `get_subj_attr`
fetches the event's subject attribute of a given type, or none. -/
def get_subj_attr (e : event_t) (ty : Nat) : Option subject_attr_t :=
  e.subjAttrs.find? (fun a => a.type == ty)

/-- Modelled from the spec (§6 Attribute accessors): `get_obj_attr`
fetches the event's object attribute of a given type, or none. -/
def get_obj_attr (e : event_t) (ty : Nat) : Option object_attr_t :=
  e.objAttrs.find? (fun a => a.type == ty)

/-- Modelled from the spec (§4.3): SYSTEM_LD_SO is the well-known
runtime-linker path; its definition lives in a header the repository does
not ship.  The concrete value is irrelevant to every property below. -/
def SYSTEM_LD_SO : String := "/lib64/ld-linux-x86-64.so.2"

/-- rules.c line 44. -/
def SYSTEM_LD_CACHE : String := "/etc/ld.so.cache"

/-- rules.c line 45. -/
def PATTERN_NORMAL_STR : String := "normal"

/-- rules.c line 46. -/
def PATTERN_NORMAL_VAL : Int := 0

/-- rules.c line 47. -/
def PATTERN_LD_SO_STR : String := "ld_so"

/-- rules.c line 48. -/
def PATTERN_LD_SO_VAL : Int := 1

/-- rules.c line 49. -/
def PATTERN_STATIC_STR : String := "static"

/-- rules.c line 50. -/
def PATTERN_STATIC_VAL : Int := 2

/-- rules.c `is_subj_trusted` (lines 195-202): the SUBJ_TRUST subject
attribute's integer value read as a boolean, false when absent. -/
def is_subj_trusted (e : event_t) : Bool :=
  match get_subj_attr e SUBJ_TRUST with
  | none => false
  | some t => t.val != 0

/-- rules.c `is_obj_trusted` (lines 208-215): the OBJ_TRUST object
attribute's `len` read as a boolean, false when absent. -/
def is_obj_trusted (e : event_t) : Bool :=
  match get_obj_attr e OBJ_TRUST with
  | none => false
  | some t => t.len != 0

/-- Outcome of `assign_subject` (rules.c lines 218-274): a new node on
success, a positive error code on a field error, or process termination —
the source calls `exit(1)` when the identity lookup fails (line 262). -/
inductive AssignResult where
  | ok (n : lnode)
  | err (code : Nat)
  | exit (code : Nat)
  deriving DecidableEq, Repr

/-- rules.c `assign_subject` (lines 218-274).  `pw` is the external
identity lookup (`getpwnam`, spec §6).  String-typed fields (`type >=
COMM`) store the raw string; PATTERN accepts only `ld_so` and `static`
(the `else` branch at line 239 reports error 2 for every other value,
including `normal`); otherwise an all-digit value is converted with
`strtol` and a non-digit value of a UID/AUID field goes through the
identity lookup, whose failure terminates the process.  A value that is
neither digit-led nor a UID/AUID name leaves `val` unassigned in the
source; it is pinned to 0 here.  The `strdup` out-of-memory branch
(error 1) is not represented. -/
def assign_subject (n : lnode) (ty : Nat) (ptr2 : String)
    (pw : String → Option Int) : AssignResult :=
  if ty ≥ COMM then
    .ok { n with s := n.s ++ [⟨ty, 0, some ptr2⟩] }
  else if ty = PATTERN then
    if ptr2 = PATTERN_LD_SO_STR then
      .ok { n with s := n.s ++ [⟨ty, PATTERN_LD_SO_VAL, none⟩] }
    else if ptr2 = PATTERN_STATIC_STR then
      .ok { n with s := n.s ++ [⟨ty, PATTERN_STATIC_VAL, none⟩] }
    else
      .err 2
  else if (cfront ptr2).isDigit then
    .ok { n with s := n.s ++ [⟨ty, strtol10 ptr2, none⟩] }
  else if ty = AUID ∨ ty = UID then
    match pw ptr2 with
    | none => .exit 1
    | some uid => .ok { n with s := n.s ++ [⟨ty, uid, none⟩] }
  else
    .ok { n with s := n.s ++ [⟨ty, 0, none⟩] }

/-- rules.c `assign_object` (lines 277-299): store the string; ODIR
fields cache its length, every other type caches 0.  The `strdup`
out-of-memory branch is not represented. -/
def assign_object (n : lnode) (ty : Nat) (ptr2 : String) : lnode :=
  { n with o := n.o ++ [⟨ty, if ty = ODIR then ptr2.length else 0, some ptr2⟩] }

/-- Outcome of `parse_new_format`: its return code together with the node
as mutated so far, or process termination propagated from
`assign_subject`. -/
inductive PnfResult where
  | done (code : Nat) (n : lnode)
  | exit (code : Nat)
  deriving DecidableEq, Repr

/-- rules.c `parse_new_format` (lines 302-351): consume the remaining
tokens of a colon-format rule.  `state` 0 means subject section, 1 means
object section; the bare `:` token switches sections.  Note the source
tests `assign_subject(...) == 3` (line 322), a value `assign_subject`
never returns, so field-level errors 1/2 from `assign_subject` do not
stop the walk and leave the node unchanged (the failing slot's count was
never incremented). -/
def parse_new_format_go (pw : String → Option Int) :
    lnode → Nat → List String → PnfResult
  | n, _, [] => .done 0 n
  | n, state, ptr :: rest =>
    match splitEq ptr with
    | some (key, val) =>
      if state = 0 then
        match subj_name_to_val key 2 with
        | none => .done 1 n
        | some ty =>
          match assign_subject n ty val pw with
          | .exit c => .exit c
          | .err _ => parse_new_format_go pw n state rest
          | .ok n' => parse_new_format_go pw n' state rest
      else
        match obj_name_to_val key with
        | none => .done 2 n
        | some ty => parse_new_format_go pw (assign_object n ty val) state rest
    | none =>
      if state = 0 ∧ ptr = ":" then parse_new_format_go pw n 1 rest
      else if ptr = "all" then
        if state = 0 then
          match assign_subject n ALL_SUBJ "" pw with
          | .exit c => .exit c
          | .err _ => parse_new_format_go pw n state rest
          | .ok n' => parse_new_format_go pw n' state rest
        else parse_new_format_go pw (assign_object n ALL_OBJ "") state rest
      else .done 5 n

/-- Outcome of `nv_split` (rules.c lines 354-461): skip (`-1`), a parsed
node (`0`), a positive error code, or process termination. -/
inductive ParseResult where
  | skip
  | ok (n : lnode)
  | err (code : Nat)
  | exit (code : Nat)
  deriving DecidableEq, Repr

/-- rules.c lines 450-460 (`finish_up`): a rule with no subject field is
error 6, with no object field error 7, otherwise it parses. -/
def finish_up (n : lnode) : ParseResult :=
  if n.s = [] then .err 6
  else if n.o = [] then .err 7
  else .ok n

/-- rules.c lines 415-416: the colon dialect hands the remaining tokens
to `parse_new_format` — whose return code is discarded by the source —
and goes to `finish_up`. -/
def pnf_finish (pw : String → Option Int) (n : lnode) (toks : List String) :
    ParseResult :=
  match parse_new_format_go pw n 0 toks with
  | .exit c => .exit c
  | .done _ n' => finish_up n'

/-- rules.c lines 384-448: the token loop of `nv_split`.  In the colon
dialect the first `key=value` token handles `perm=` or one subject field
and then defers to `parse_new_format`; in the original dialect each
`key=value` token is tried as a subject field and then as an object
field.  A bare `all` fills whichever field list is still empty; any other
token without `=` is error 5.  As in the source, error returns of
`assign_subject` other than the impossible value 3 are ignored. -/
def nv_split_go (pw : String → Option Int) (format : RFormat) :
    lnode → List String → ParseResult
  | n, [] => finish_up n
  | n, ptr :: rest =>
    match splitEq ptr with
    | some (key, val) =>
      if format = .colon then
        if key = "perm" then
          if val = "execute" then pnf_finish pw { n with a := .exec_acc } rest
          else if val = "any" then pnf_finish pw { n with a := .any_acc } rest
          else if val ≠ "open" then .err 2
          else pnf_finish pw n rest
        else
          match subj_name_to_val key 2 with
          | none => .err 1
          | some ty =>
            match assign_subject n ty val pw with
            | .exit c => .exit c
            | .err _ => pnf_finish pw n rest
            | .ok n' => pnf_finish pw n' rest
      else
        match subj_name_to_val key 1 with
        | some ty =>
          match assign_subject n ty val pw with
          | .exit c => .exit c
          | .err _ => nv_split_go pw format n rest
          | .ok n' => nv_split_go pw format n' rest
        | none =>
          match obj_name_to_val key with
          | none => .err 3
          | some ty => nv_split_go pw format (assign_object n ty val) rest
    | none =>
      if ptr = "all" then
        if n.s = [] then
          match assign_subject n ALL_SUBJ "" pw with
          | .exit c => .exit c
          | .err _ => nv_split_go pw format n rest
          | .ok n' => nv_split_go pw format n' rest
        else if n.o = [] then
          nv_split_go pw format (assign_object n ALL_OBJ "") rest
        else .err 4
      else .err 5

/-- rules.c `nv_split` (lines 354-461): detect the dialect by the
presence of a `:` anywhere in the line, skip empty lines and lines whose
first token starts with `#`, resolve the decision keyword (error 1 when
unknown), default the access permission to open, then run the token
loop. -/
def nv_split (buf : String) (pw : String → Option Int) : ParseResult :=
  let format := if buf.data.contains ':' then RFormat.colon else RFormat.orig
  match strtok_spaces buf with
  | [] => .skip
  | ptr :: rest =>
    if cfront ptr = '#' then .skip
    else
      match dec_name_to_val ptr with
      | none => .err 1
      | some d =>
        nv_split_go pw format
          { format := format, d := d, a := .open_acc, s := [], o := [], num := 0 }
          rest

/-- rules.c `rules_create` (lines 52-57). -/
def rules_create : llist :=
  { rules := [], cnt := 0 }

/-- rules.c lines 491-503: the store phase of `rules_append` — the new
node goes to the tail, receives index `l->cnt`, and the count grows. -/
def rules_append_node (l : llist) (n : lnode) : llist :=
  { rules := l.rules ++ [{ n with num := l.cnt }], cnt := l.cnt + 1 }

/-- Outcome of `rules_append`: a return code with the (possibly extended)
store, or process termination propagated from parsing. -/
inductive AppendResult where
  | ret (code : Nat) (l : llist)
  | exit (code : Nat)
  deriving DecidableEq, Repr

/-- rules.c `rules_append` (lines 466-507): a NULL buffer is failure 1;
a parse skip (`nv_split` < 0) is success 0 with the store untouched; a
parse error (> 0) is failure 1 with the store untouched; a parsed node is
appended at the tail with the next sequential index. -/
def rules_append (l : llist) (buf : Option String)
    (pw : String → Option Int) : AppendResult :=
  match buf with
  | none => .ret 1 l
  | some b =>
    match nv_split b pw with
    | .skip => .ret 0 l
    | .err _ => .ret 1 l
    | .exit c => .exit c
    | .ok n => .ret 0 (rules_append_node l n)

/-- rules.c `dirs` (lines 511-519): the fixed directory table; each entry
pairs the string length used by `strncmp` with the directory. -/
def dirs : List (Nat × String) :=
  [(5, "/etc/"), (5, "/usr/"), (5, "/bin/"), (6, "/sbin/"),
   (5, "/lib/"), (7, "/lib64/"), (13, "/usr/libexec/")]

/-- rules.c `check_dirs` (lines 523-534): walk the table from index `i`
and report 1 as soon as `path` starts with an entry, else 0. -/
def check_dirs (i : Nat) (path : String) : Nat :=
  if (dirs.drop i).any (fun d => cstrEqN path d.2 d.1) then 1 else 0

/-- rules.c `obj_dir_test` (lines 538-555): `execdirs` (cached length 8)
consults the table from index 1, `systemdirs` (cached length 10) from
index 0; a stored value of cached length 10 equal to `untrusted` matches
iff the object is not trusted; anything else is a plain
`strncmp`-prefix test of the candidate against the stored value, with a
missing candidate string counting as a match. -/
def obj_dir_test (o obj : object_attr_t) (trusted : Bool) : Nat :=
  if o.len = 8 ∧ o.o = some "execdirs" then check_dirs 1 (obj.o.getD "")
  else if o.len = 10 ∧ o.o = some "systemdirs" then check_dirs 0 (obj.o.getD "")
  else if o.len = 10 ∧ o.o = some "untrusted" then
    if trusted then 0 else 1
  else if obj.o.isSome ∧ ¬cstrEqN (obj.o.getD "") (o.o.getD "") o.len then 0
  else 1

/-- rules.c `subj_dir_test` (lines 559-577): as `obj_dir_test`, but the
length is recomputed with `strlen` from the stored subject string and the
candidate is dereferenced unconditionally. -/
def subj_dir_test (s subj : subject_attr_t) (trusted : Bool) : Nat :=
  let str := s.str.getD ""
  let len := str.length
  if len = 8 ∧ str = "execdirs" then check_dirs 1 (subj.str.getD "")
  else if len = 10 ∧ str = "systemdirs" then check_dirs 0 (subj.str.getD "")
  else if len = 10 ∧ str = "untrusted" then
    if trusted then 0 else 1
  else if ¬cstrEqN (subj.str.getD "") str len then 0
  else 1

/-- rules.c lines 692-714 (the `make_decision` label of
`subj_pattern_test`): compare the reached state with the rule's pattern
code — `rc` is 0 on entry, becomes 1 exactly when the state agrees with
the requested pattern — then release the transient paths. -/
def make_decision (v : Int) (p : proc_info) : Int × proc_info :=
  let rc : Int :=
    if v = PATTERN_NORMAL_VAL then
      if p.state = .NORMAL then 1 else 0
    else if v = PATTERN_LD_SO_VAL then
      if p.state = .LD_SO then 1 else 0
    else if v = PATTERN_STATIC_VAL then
      if p.state = .STATIC_REOPEN ∨ p.state = .STATIC_PARTIAL_ ∨
          p.state = .STATIC then 1 else 0
    else 0
  (rc, clear_proc_info p)

/-- rules.c `subj_pattern_test` (lines 643-715).  While fewer than two
paths are collected: a process with no ELF flags at all becomes NOT_ELF
(cleared, no match now or later); an ELF without a dynamic segment still
COLLECTING becomes STATIC_REOPEN and is decided at once; STATIC_PARTIAL
is decided at once; an open-for-execute of the runtime linker becomes
LD_SO and is decided at once; otherwise there is no decision yet (0).
At FULL, an analysis error becomes BAD_ELF (cleared, returns -1), else
the first collected path classifies the process as LD_SO or NORMAL and
the decision step runs.  Any later state goes straight to the decision
step.  The source mutates `e->s->info`; the updated entry is returned. -/
def subj_pattern_test (s : subject_attr_t) (e : event_t) : Int × proc_info :=
  let pinfo := e.pinfo
  if pinfo.state.toNat < State.FULL.toNat then
    if elf_info_zero pinfo.elf_info then
      (0, clear_proc_info { pinfo with state := .NOT_ELF })
    else if pinfo.elf_info.isElf ∧ pinfo.state = .COLLECTING ∧
        ¬pinfo.elf_info.hasDynamic then
      make_decision s.val { pinfo with state := .STATIC_REOPEN }
    else if pinfo.state = .STATIC_PARTIAL_ then
      make_decision s.val pinfo
    else if e.execPerm ∧ pinfo.path1.isSome ∧ pinfo.path1 = some SYSTEM_LD_SO then
      make_decision s.val { pinfo with state := .LD_SO }
    else
      (0, pinfo)
  else if pinfo.state = .FULL then
    if pinfo.elf_info.hasError then
      (-1, clear_proc_info { pinfo with state := .BAD_ELF })
    else if pinfo.path1 = some SYSTEM_LD_SO then
      make_decision s.val { pinfo with state := .LD_SO }
    else
      make_decision s.val { pinfo with state := .NORMAL }
  else
    make_decision s.val pinfo

/-- rules.c `check_access` (lines 719-732): ANY always matches; otherwise
the event's operation (execute-permission vs open) must equal the rule's
access. -/
def check_access (r : lnode) (e : event_t) : Nat :=
  if r.a = .any_acc then 1
  else
    let perm := if e.execPerm then Access.exec_acc else Access.open_acc
    if r.a = perm then 1 else 0

/-- rules.c `check_subject` loop body (lines 741-782), threading the
per-process pattern state that `subj_pattern_test` mutates.  The wildcard
subject is skipped; a missing attribute is skipped except for PATTERN
fields; a PATTERN result 0 fails the whole check, -1 passes it (deny is
likely), 1 moves on; string fields use the directory test for EXE_DIR,
the trust attribute for an EXE field valued `untrusted`, and exact
comparison otherwise; numeric fields compare values. -/
def check_subject_go (e : event_t) :
    List subject_attr_t → proc_info → Nat × proc_info
  | [], p => (1, p)
  | f :: rest, p =>
    if f.type = ALL_SUBJ then check_subject_go e rest p
    else if get_subj_attr e f.type = none ∧ f.type ≠ PATTERN then
      check_subject_go e rest p
    else if f.type = PATTERN then
      if (subj_pattern_test f { e with pinfo := p }).1 = 0 then
        (0, (subj_pattern_test f { e with pinfo := p }).2)
      else if (subj_pattern_test f { e with pinfo := p }).1 = -1 then
        (1, (subj_pattern_test f { e with pinfo := p }).2)
      else check_subject_go e rest (subj_pattern_test f { e with pinfo := p }).2
    else if f.type ≥ COMM then
      match get_subj_attr e f.type with
      | none => check_subject_go e rest p
      | some sa =>
        match sa.str with
        | none => check_subject_go e rest p
        | some sstr =>
          if f.type = EXE_DIR then
            if subj_dir_test f sa (is_subj_trusted e) = 0 then (0, p)
            else check_subject_go e rest p
          else if f.type = EXE ∧ f.str = some "untrusted" then
            if is_subj_trusted e then (0, p)
            else check_subject_go e rest p
          else if f.str = some sstr then check_subject_go e rest p
          else (0, p)
    else
      match get_subj_attr e f.type with
      | none => check_subject_go e rest p
      | some sa =>
        if sa.val ≠ f.val then (0, p) else check_subject_go e rest p

/-- rules.c `check_subject` (lines 736-785). -/
def check_subject (r : lnode) (e : event_t) : Nat × proc_info :=
  check_subject_go e r.s e.pinfo

/-- The subject field slot read by `check_object`'s cross-indexed test
(rules.c lines 811-813); a slot past `s_count` carries type UNUSED in the
source. -/
def subj_field_at (r : lnode) (cnt : Nat) : subject_attr_t :=
  (r.s[cnt]?).getD ⟨UNUSED, 0, none⟩

/-- rules.c `check_object` loop body (lines 794-832) at one field index.
The wildcard object is skipped, as is a missing attribute (or a missing
attribute string for non-trust fields); ODIR fields run the directory
test; a PATH field whose same-index subject field is an EXE/EXE_DIR
valued `untrusted` matches iff the object is not trusted; OBJ_TRUST
compares the rule's first character against "1"/"0" derived from the
attribute's `len`; an FTYPE field valued `any` always matches; everything
else is exact string comparison. -/
def check_object_at (r : lnode) (e : event_t) (cnt : Nat) : Bool :=
  match r.o[cnt]? with
  | none => true
  | some f =>
    if f.type = ALL_OBJ then true
    else
      match get_obj_attr e f.type with
      | none => true
      | some obj =>
        if obj.o = none ∧ f.type ≠ OBJ_TRUST then true
        else if f.type = ODIR then
          obj_dir_test f obj (is_obj_trusted e) ≠ 0
        else if f.type = PATH ∧
            ((subj_field_at r cnt).type = EXE ∨
              (subj_field_at r cnt).type = EXE_DIR) ∧
            (subj_field_at r cnt).str = some "untrusted" then
          ¬is_obj_trusted e
        else if f.type = OBJ_TRUST then
          cfront (f.o.getD "") = (if obj.len = 0 then '0' else '1')
        else if f.type = FTYPE ∧ f.o = some "any" then true
        else obj.o = f.o

/-- rules.c `check_object` (lines 789-836): conjunction over all object
field indices. -/
def check_object (r : lnode) (e : event_t) : Nat :=
  if (List.range r.o.length).all (fun cnt => check_object_at r e cnt) then 1
  else 0

/-- rules.c `rule_evaluate` (lines 839-859): access, subject and object
checks in order, each mismatch short-circuiting to NO_OPINION; a full
match returns the rule's decision.  The pattern state mutated through the
subject check is returned alongside. -/
def rule_evaluate (r : lnode) (e : event_t) : Decision × proc_info :=
  if check_access r e = 0 then (.no_opinion, e.pinfo)
  else
    let cs := check_subject r e
    if cs.1 = 0 then (.no_opinion, cs.2)
    else if check_object r { e with pinfo := cs.2 } = 0 then (.no_opinion, cs.2)
    else (r.d, cs.2)

/-- Modelled from the spec (§4.4): the caller's first-match walk applies
`rule_evaluate` per rule in store order until one returns other than
NO_OPINION, threading the mutated pattern state between rules; an
exhausted store is NO_OPINION. -/
def evaluate_store_go (e : event_t) : List lnode → Decision
  | [] => .no_opinion
  | r :: rest =>
    let dp := rule_evaluate r e
    if dp.1 = .no_opinion then evaluate_store_go { e with pinfo := dp.2 } rest
    else dp.1

/-- Modelled from the spec (§4.4): first-match evaluation of the store. -/
def evaluate_store (l : llist) (e : event_t) : Decision :=
  evaluate_store_go e l.rules

/-- An identity lookup that knows no user at all (`getpwnam` always
NULL). -/
def pw_unknown : String → Option Int := fun _ => none

/-- A freshly allocated, empty rule node as `rules_append` builds it
before parsing (rules.c lines 473-479). -/
def node0 : lnode :=
  { format := .orig, d := .deny, a := .open_acc, s := [], o := [], num := 0 }

/-- A rule whose single subject field is the pattern `static` and whose
object is the wildcard. -/
def rule_pattern_static : lnode :=
  { format := .orig, d := .deny, a := .open_acc,
    s := [⟨PATTERN, PATTERN_STATIC_VAL, none⟩],
    o := [⟨ALL_OBJ, 0, some ""⟩], num := 0 }

/-- A rule whose single subject field is the pattern `ld_so` and whose
object is the wildcard. -/
def rule_pattern_ld_so : lnode :=
  { format := .orig, d := .deny, a := .open_acc,
    s := [⟨PATTERN, PATTERN_LD_SO_VAL, none⟩],
    o := [⟨ALL_OBJ, 0, some ""⟩], num := 0 }

/-- A wildcard rule (subject `all`, object `all`) with a chosen
decision. -/
def rule_all (d : Decision) : lnode :=
  { format := .orig, d := d, a := .open_acc,
    s := [⟨ALL_SUBJ, 0, none⟩], o := [⟨ALL_OBJ, 0, some ""⟩], num := 0 }

/-- A rule whose single subject field is `uid=0` and whose object is the
wildcard (no pattern field). -/
def rule_uid0 : lnode :=
  { format := .orig, d := .deny, a := .open_acc,
    s := [⟨UID, 0, none⟩], o := [⟨ALL_OBJ, 0, some ""⟩], num := 0 }

/-- An open event for a process still collecting paths, whose executable
is an ELF without a dynamic segment (a statically linked program). -/
def ev_static_candidate : event_t :=
  { execPerm := false, subjAttrs := [], objAttrs := [],
    pinfo := { state := .COLLECTING, elf_info := ⟨true, false, false⟩,
               path1 := some "/usr/bin/x", path2 := none } }

/-- An open event for a process with both paths collected whose ELF
analysis recorded an error. -/
def ev_full_error : event_t :=
  { execPerm := false, subjAttrs := [], objAttrs := [],
    pinfo := { state := .FULL, elf_info := ⟨true, true, true⟩,
               path1 := some SYSTEM_LD_SO, path2 := some "/usr/lib64/l.so" } }

/-- An open event for a process with both paths collected, no analysis
error, whose first path is the runtime linker. -/
def ev_full_ld_so : event_t :=
  { execPerm := false, subjAttrs := [], objAttrs := [],
    pinfo := { state := .FULL, elf_info := ⟨true, true, false⟩,
               path1 := some SYSTEM_LD_SO, path2 := some "/usr/lib64/l.so" } }

/-- A plain open event with an uninteresting pattern state and a uid
attribute of 0. -/
def ev_plain : event_t :=
  { execPerm := false, subjAttrs := [⟨UID, 0, none⟩], objAttrs := [],
    pinfo := { state := .COLLECTING, elf_info := ⟨false, false, false⟩,
               path1 := none, path2 := none } }

theorem cstrncmpEq_pref_iff (v p : List Char) :
    cstrncmpEq p v v.length = true ↔ v <+: p := by
  induction v generalizing p with
  | nil => simp [cstrncmpEq, List.nil_prefix]
  | cons c cs ih =>
    cases p with
    | nil => simp [cstrncmpEq, List.prefix_nil]
    | cons a as =>
      have hstep : cstrncmpEq (a :: as) (c :: cs) (c :: cs).length
          = ((a == c) && cstrncmpEq as cs cs.length) := rfl
      rw [hstep, Bool.and_eq_true, beq_iff_eq, ih, List.cons_prefix_cons]
      exact ⟨fun h => ⟨h.1.symm, h.2⟩, fun h => ⟨h.1.symm, h.2⟩⟩

theorem cstrEqN_pref_iff (p v : String) (n : Nat) (h : n = v.length) :
    (cstrEqN p v n = true) ↔ v.data <+: p.data := by
  subst h
  exact cstrncmpEq_pref_iff v.data p.data

theorem nat_ite_one_eq_one (b : Prop) [Decidable b] :
    ((if b then 1 else 0 : Nat) = 1) ↔ b := by
  split_ifs with h <;> simp [h]

theorem make_decision_fst (v : Int) (p : proc_info) :
    (make_decision v p).1 = 0 ∨ (make_decision v p).1 = 1 := by
  simp only [make_decision]
  split_ifs <;> simp

theorem check_dirs_one_iff (path : String) :
    check_dirs 1 path = 1 ↔
      ("/usr/".data <+: path.data ∨ "/bin/".data <+: path.data ∨
       "/sbin/".data <+: path.data ∨ "/lib/".data <+: path.data ∨
       "/lib64/".data <+: path.data ∨ "/usr/libexec/".data <+: path.data) := by
  rw [check_dirs, nat_ite_one_eq_one]
  simp only [dirs, List.drop, List.any_cons, List.any_nil, Bool.or_eq_true,
    Bool.or_false]
  rw [cstrEqN_pref_iff path "/usr/" 5 rfl, cstrEqN_pref_iff path "/bin/" 5 rfl,
    cstrEqN_pref_iff path "/sbin/" 6 rfl, cstrEqN_pref_iff path "/lib/" 5 rfl,
    cstrEqN_pref_iff path "/lib64/" 7 rfl,
    cstrEqN_pref_iff path "/usr/libexec/" 13 rfl]

theorem check_dirs_zero_iff (path : String) :
    check_dirs 0 path = 1 ↔
      ("/etc/".data <+: path.data ∨ "/usr/".data <+: path.data ∨
       "/bin/".data <+: path.data ∨ "/sbin/".data <+: path.data ∨
       "/lib/".data <+: path.data ∨ "/lib64/".data <+: path.data ∨
       "/usr/libexec/".data <+: path.data) := by
  rw [check_dirs, nat_ite_one_eq_one]
  simp only [dirs, List.drop, List.any_cons, List.any_nil, Bool.or_eq_true,
    Bool.or_false]
  rw [cstrEqN_pref_iff path "/etc/" 5 rfl, cstrEqN_pref_iff path "/usr/" 5 rfl,
    cstrEqN_pref_iff path "/bin/" 5 rfl, cstrEqN_pref_iff path "/sbin/" 6 rfl,
    cstrEqN_pref_iff path "/lib/" 5 rfl, cstrEqN_pref_iff path "/lib64/" 7 rfl,
    cstrEqN_pref_iff path "/usr/libexec/" 13 rfl]

theorem check_subject_go_snd (e : event_t) :
    ∀ (l : List subject_attr_t) (p : proc_info),
      (∀ f ∈ l, f.type ≠ PATTERN) → (check_subject_go e l p).2 = p := by
  intro l
  induction l with
  | nil => intro p _; rfl
  | cons f rest ih =>
    intro p h
    have hf : f.type ≠ PATTERN := h f (List.mem_cons_self f rest)
    have hr : ∀ g ∈ rest, g.type ≠ PATTERN :=
      fun g hg => h g (List.mem_cons_of_mem f hg)
    rw [check_subject_go]
    by_cases h0 : f.type = ALL_SUBJ
    · rw [if_pos h0]; exact ih p hr
    · rw [if_neg h0]
      by_cases h1 : get_subj_attr e f.type = none ∧ f.type ≠ PATTERN
      · rw [if_pos h1]; exact ih p hr
      · rw [if_neg h1, if_neg hf]
        by_cases h2 : f.type ≥ COMM
        · rw [if_pos h2]
          split
          · exact ih p hr
          · split
            · exact ih p hr
            · split_ifs <;> first | rfl | exact ih p hr
        · rw [if_neg h2]
          split
          · exact ih p hr
          · split_ifs <;> first | rfl | exact ih p hr

theorem rule_evaluate_snd_nopat (r : lnode) (e : event_t)
    (h : ∀ f ∈ r.s, f.type ≠ PATTERN) : (rule_evaluate r e).2 = e.pinfo := by
  rw [rule_evaluate]
  have hs := check_subject_go_snd e r.s e.pinfo h
  split_ifs <;> simp only [check_subject, hs] <;> split_ifs <;> rfl

/-- Claim C1: the claim states that a `uid=`/`auid=` value that does not
begin with a digit and does not resolve via the identity lookup is a
parse error for that rule only, never terminating the whole process.
The code disagrees: `assign_subject` calls `exit(1)` when `getpwnam`
returns NULL (rules.c lines 258-263), so `rules_append` on such a line
terminates the process instead of failing the single rule. -/
theorem C1_unresolvable_uid_terminates :
    assign_subject node0 UID "daemonuser" pw_unknown = .exit 1
    ∧ assign_subject node0 AUID "daemonuser" pw_unknown = .exit 1
    ∧ rules_append rules_create (some "deny uid=daemonuser all") pw_unknown
        = .exit 1 := by
  refine ⟨rfl, rfl, by decide⟩

/-- Claim C2: the claim states that pattern-typed subject fields accept
exactly `normal`, `ld_so` and `static`, mapped to 0, 1 and 2.  The code
accepts only `ld_so` (1) and `static` (2): the chain at rules.c lines
233-244 has no branch for PATTERN_NORMAL_STR, so the value `normal` falls
into the `Unknown pattern value` error, even though the macros at lines
45-46 define it and the decision switch at line 695 handles its code. -/
theorem C2_pattern_literal_values :
    assign_subject node0 PATTERN "normal" pw_unknown = .err 2
    ∧ assign_subject node0 PATTERN "ld_so" pw_unknown
        = .ok { node0 with s := [⟨PATTERN, 1, none⟩] }
    ∧ assign_subject node0 PATTERN "static" pw_unknown
        = .ok { node0 with s := [⟨PATTERN, 2, none⟩] }
    ∧ assign_subject node0 PATTERN "ld.so" pw_unknown = .err 2
    ∧ PATTERN_NORMAL_STR = "normal" ∧ PATTERN_NORMAL_VAL = 0 := by
  refine ⟨rfl, rfl, rfl, rfl, rfl, rfl⟩

/-- Claim C3: the claim states that a directory-typed field whose stored
value is `untrusted` matches exactly when the corresponding trust
attribute says not-trusted.  The code's `untrusted` branches require a
cached length of 10 (rules.c lines 547 and 570) while
`strlen("untrusted") = 9`, so the branch is unreachable and the value
degrades to a literal prefix test: with an untrusted event and candidate
`/usr/bin/ls` both directory tests report no match (the claim expects a
match), while a path literally starting with `untrusted` matches even
for a trusted event. -/
theorem C3_untrusted_dir_branch_dead :
    ("untrusted" : String).length = 9
    ∧ obj_dir_test ⟨ODIR, 9, some "untrusted"⟩ ⟨PATH, 0, some "/usr/bin/ls"⟩
        false = 0
    ∧ subj_dir_test ⟨EXE_DIR, 0, some "untrusted"⟩
        ⟨EXE_DIR, 0, some "/usr/bin/ls"⟩ false = 0
    ∧ obj_dir_test ⟨ODIR, 9, some "untrusted"⟩ ⟨PATH, 0, some "untrusted-d/x"⟩
        true = 1
    ∧ subj_dir_test ⟨EXE_DIR, 0, some "untrusted"⟩
        ⟨EXE_DIR, 0, some "untrusted-d/x"⟩ true = 1 := by
  refine ⟨rfl, by decide, by decide, by decide, by decide⟩

/-- Claim C4: appending a rule to the store places it at the tail with
the next sequential index, and for a store built by appending R1 (deny,
matching E) and then R2 (allow, also matching E), the first-match walk
over the store returns deny. -/
theorem C4_append_order_first_match_deny (e : event_t) (r1 r2 : lnode)
    (h1 : (rule_evaluate r1 e).1 = Decision.deny)
    (h2 : (rule_evaluate r2 e).1 = Decision.allow) :
    (∀ (l : llist) (n : lnode),
      (rules_append_node l n).rules = l.rules ++ [{ n with num := l.cnt }]
        ∧ (rules_append_node l n).cnt = l.cnt + 1)
    ∧ (rules_append_node (rules_append_node rules_create r1) r2).rules
        = [{ r1 with num := 0 }, { r2 with num := 1 }]
    ∧ evaluate_store (rules_append_node (rules_append_node rules_create r1) r2) e
        = Decision.deny := by
  refine ⟨fun l n => ⟨rfl, rfl⟩, rfl, ?_⟩
  have key : evaluate_store_go e [{ r1 with num := 0 }, { r2 with num := 1 }]
      = Decision.deny := by
    simp only [evaluate_store_go]
    have he : (rule_evaluate { r1 with num := 0 } e).1 = Decision.deny := h1
    rw [he]
    simp
  exact key

/-- Closed instance of claim C4's theorem: both hypotheses hold for the
wildcard deny/allow rules on a plain event, and the two-rule store
evaluates to deny. -/
theorem C4_witness :
    evaluate_store (rules_append_node (rules_append_node rules_create
      (rule_all .deny)) (rule_all .allow)) ev_plain = Decision.deny :=
  (C4_append_order_first_match_deny ev_plain (rule_all .deny) (rule_all .allow)
    (by decide) (by decide)).2.2

/-- Claim C10: a blank line and a line whose first token starts with `#`
make `rules_append` report success (0) with the store untouched, and a
line whose parse fails makes it report failure (1) with the store
untouched. -/
theorem C10_skip_and_error_leave_store (l : llist) (pw : String → Option Int) :
    (∀ b : String, strtok_spaces b = [] → rules_append l (some b) pw = .ret 0 l)
    ∧ (∀ (b t : String) (rest : List String),
        strtok_spaces b = t :: rest → cfront t = '#' →
        rules_append l (some b) pw = .ret 0 l)
    ∧ (∀ (b : String) (k : Nat), nv_split b pw = .err k →
        rules_append l (some b) pw = .ret 1 l) := by
  refine ⟨?_, ?_, ?_⟩
  · intro b hb
    simp only [rules_append, nv_split, hb]
  · intro b t rest hb ht
    simp only [rules_append, nv_split, hb, if_pos ht]
  · intro b k hk
    simp only [rules_append, hk]

/-- Closed instance of claim C10's theorem: the empty line and a comment
line are skipped leaving the empty store intact, and a line with an
unknown decision keyword fails leaving the store intact. -/
theorem C10_witness :
    rules_append rules_create (some "") pw_unknown = .ret 0 rules_create
    ∧ rules_append rules_create (some "  # trust the distro") pw_unknown
        = .ret 0 rules_create
    ∧ rules_append rules_create (some "frob uid=0 all") pw_unknown
        = .ret 1 rules_create := by
  refine ⟨(C10_skip_and_error_leave_store rules_create pw_unknown).1 "" rfl,
    (C10_skip_and_error_leave_store rules_create pw_unknown).2.1
      "  # trust the distro" "#" ["trust", "the", "distro"] (by decide) rfl,
    (C10_skip_and_error_leave_store rules_create pw_unknown).2.2
      "frob uid=0 all" 1 (by decide)⟩

/-- Claim C9 counterexample: the claim states that evaluating the same
rule against the same event twice yields the same decision.  A rule with
a pattern-typed subject field refutes it: the first evaluation of a
statically-linked candidate reaches STATE_STATIC_REOPEN, matches
`pattern=static`, returns deny and consumes the collected path; the
second evaluation of the same rule on the same (now mutated) event finds
no path to test and returns NO_OPINION. -/
theorem C9_counterexample_pattern_not_stable :
    (rule_evaluate rule_pattern_static ev_static_candidate).1 = Decision.deny
    ∧ (rule_evaluate rule_pattern_static
        { ev_static_candidate with
          pinfo := (rule_evaluate rule_pattern_static ev_static_candidate).2 }).1
        = Decision.no_opinion := by
  refine ⟨by decide, by decide⟩

/-- Claim C9 as amended: `rule_evaluate` never mutates the rule (it is
consumed read-only by construction), and for every rule with no
pattern-typed subject field the evaluation leaves the event's process
entry unchanged, so calling it twice in succession on the same rule and
event yields the same decision; a pattern-typed subject field consumes
per-process transient state, so there a second evaluation may differ. -/
theorem C9_amended_no_pattern_stable (r : lnode) (e : event_t)
    (h : ∀ f ∈ r.s, f.type ≠ PATTERN) :
    (rule_evaluate r e).2 = e.pinfo
    ∧ (rule_evaluate r { e with pinfo := (rule_evaluate r e).2 }).1
        = (rule_evaluate r e).1 := by
  have h2 := rule_evaluate_snd_nopat r e h
  refine ⟨h2, ?_⟩
  rw [h2]

/-- Closed instance of claim C9's amended theorem at a uid-only rule. -/
theorem C9_amended_witness :
    (rule_evaluate rule_uid0 ev_plain).2 = ev_plain.pinfo
    ∧ (rule_evaluate rule_uid0
        { ev_plain with pinfo := (rule_evaluate rule_uid0 ev_plain).2 }).1
        = (rule_evaluate rule_uid0 ev_plain).1 :=
  C9_amended_no_pattern_stable rule_uid0 ev_plain (by decide)

theorem make_decision_ne_neg (v : Int) (p : proc_info) :
    (make_decision v p).1 ≠ -1 := by
  rcases make_decision_fst v p with h | h <;> rw [h] <;> decide

/-- Claim C5: the pattern test returns only 1 (match), 0 (no match or
insufficient information) or -1 (and -1 only out of the FULL-state
ELF-error branch); for a rule whose subject list starts with the pattern
field, the subject check turns a -1 into a subject match (deny-leaning
fail-safe) and a 0 into a no-match for the whole check. -/
theorem C5_pattern_return_contract (s : subject_attr_t) (e : event_t)
    (r : lnode) (rest : List subject_attr_t)
    (hs : r.s = s :: rest) (hp : s.type = PATTERN) :
    ((subj_pattern_test s e).1 = -1 ∨ (subj_pattern_test s e).1 = 0 ∨
      (subj_pattern_test s e).1 = 1)
    ∧ ((subj_pattern_test s e).1 = -1 →
        e.pinfo.state = State.FULL ∧ e.pinfo.elf_info.hasError = true)
    ∧ ((subj_pattern_test s e).1 = -1 → (check_subject r e).1 = 1)
    ∧ ((subj_pattern_test s e).1 = 0 → (check_subject r e).1 = 0) := by
  have contract : ((subj_pattern_test s e).1 = -1 ∨ (subj_pattern_test s e).1 = 0 ∨
      (subj_pattern_test s e).1 = 1)
      ∧ ((subj_pattern_test s e).1 = -1 →
        e.pinfo.state = State.FULL ∧ e.pinfo.elf_info.hasError = true) := by
    simp only [subj_pattern_test]
    split_ifs with h1 h2 h3 h4 h5 h6 h7 h8
    all_goals
      first
      | exact ⟨Or.inr (Or.inl rfl), fun hc => absurd hc (by decide)⟩
      | exact ⟨Or.inl rfl, fun _ => ⟨h6, h7⟩⟩
      | exact ⟨(make_decision_fst _ _).elim (fun h => Or.inr (Or.inl h))
            (fun h => Or.inr (Or.inr h)),
          fun hc => absurd hc (make_decision_ne_neg _ _)⟩
  have hee : ({ e with pinfo := e.pinfo } : event_t) = e := rfl
  refine ⟨contract.1, contract.2, ?_, ?_⟩
  · intro hm
    rw [check_subject, hs, check_subject_go]
    rw [if_neg (show ¬s.type = ALL_SUBJ from by rw [hp]; decide),
      if_neg (fun hcon => hcon.2 hp), if_pos hp, hee,
      if_neg (show ¬(subj_pattern_test s e).1 = 0 from by rw [hm]; decide),
      if_pos hm]
  · intro hm
    rw [check_subject, hs, check_subject_go]
    rw [if_neg (show ¬s.type = ALL_SUBJ from by rw [hp]; decide),
      if_neg (fun hcon => hcon.2 hp), if_pos hp, hee, if_pos hm]

/-- Closed instance of claim C5's theorem: an ELF-analysis error gives
-1 and the subject check reports a match; an event with too little
information gives 0 and the subject check reports no match. -/
theorem C5_witness :
    (subj_pattern_test ⟨PATTERN, PATTERN_LD_SO_VAL, none⟩ ev_full_error).1 = -1
    ∧ (check_subject rule_pattern_ld_so ev_full_error).1 = 1
    ∧ (subj_pattern_test ⟨PATTERN, PATTERN_LD_SO_VAL, none⟩ ev_plain).1 = 0
    ∧ (check_subject rule_pattern_ld_so ev_plain).1 = 0 := by
  refine ⟨by decide,
    (C5_pattern_return_contract ⟨PATTERN, PATTERN_LD_SO_VAL, none⟩ ev_full_error
      rule_pattern_ld_so [] rfl rfl).2.2.1 (by decide),
    by decide,
    (C5_pattern_return_contract ⟨PATTERN, PATTERN_LD_SO_VAL, none⟩ ev_plain
      rule_pattern_ld_so [] rfl rfl).2.2.2 (by decide)⟩

/-- Claim C6: a pattern query in state FULL with the error flag set moves
to BAD_ELF, clears the transient info and returns -1; without the error
flag the state becomes LD_SO exactly when the first collected path is the
runtime-linker path and NORMAL otherwise, and the transient path buffers
are released after the decision. -/
theorem C6_full_state_classification (s : subject_attr_t) (e : event_t)
    (hf : e.pinfo.state = State.FULL) :
    (e.pinfo.elf_info.hasError = true →
      subj_pattern_test s e =
        (-1, { e.pinfo with state := State.BAD_ELF, path1 := none, path2 := none }))
    ∧ (e.pinfo.elf_info.hasError = false →
        (subj_pattern_test s e).2.state =
            (if e.pinfo.path1 = some SYSTEM_LD_SO then State.LD_SO
             else State.NORMAL)
          ∧ (subj_pattern_test s e).2.path1 = none
          ∧ (subj_pattern_test s e).2.path2 = none) := by
  have hnot : ¬(e.pinfo.state.toNat < State.FULL.toNat) := by rw [hf]; decide
  constructor
  · intro herr
    simp only [subj_pattern_test]
    rw [if_neg hnot, if_pos hf, if_pos herr]
    rfl
  · intro herr
    simp only [subj_pattern_test]
    rw [if_neg hnot, if_pos hf,
      if_neg (show ¬e.pinfo.elf_info.hasError = true from by rw [herr]; decide)]
    by_cases hp : e.pinfo.path1 = some SYSTEM_LD_SO
    · rw [if_pos hp, if_pos hp]
      exact ⟨rfl, rfl, rfl⟩
    · rw [if_neg hp, if_neg hp]
      exact ⟨rfl, rfl, rfl⟩

/-- Closed instance of claim C6's theorem: at FULL with the error flag
the query returns -1 with the entry moved to BAD_ELF and cleared; at
FULL without it and the runtime linker as first path the entry moves to
LD_SO. -/
theorem C6_witness :
    subj_pattern_test ⟨PATTERN, PATTERN_LD_SO_VAL, none⟩ ev_full_error =
      (-1, { ev_full_error.pinfo with state := State.BAD_ELF, path1 := none, path2 := none })
    ∧ (subj_pattern_test ⟨PATTERN, PATTERN_LD_SO_VAL, none⟩ ev_full_ld_so).2.state
        = State.LD_SO := by
  refine ⟨(C6_full_state_classification ⟨PATTERN, PATTERN_LD_SO_VAL, none⟩
    ev_full_error rfl).1 rfl, ?_⟩
  have h := (C6_full_state_classification ⟨PATTERN, PATTERN_LD_SO_VAL, none⟩
    ev_full_ld_so rfl).2 rfl
  rw [h.1]
  decide

/-- Claim C7 counterexample: the claim asserts that stored directory
value `/usr/` does not match candidate `/usr/local2/x`; but
`/usr/local2/x` begins with the five bytes `/usr/`, so the raw
substring-prefix test of the code reports a match (for the subject-side
test as well). -/
theorem C7_counterexample_usr_local2 :
    obj_dir_test ⟨ODIR, 5, some "/usr/"⟩ ⟨PATH, 0, some "/usr/local2/x"⟩
      false = 1
    ∧ subj_dir_test ⟨EXE_DIR, 0, some "/usr/"⟩
        ⟨EXE, 0, some "/usr/local2/x"⟩ false = 1 := by
  refine ⟨by decide, by decide⟩

/-- Claim C7 as amended: a directory-typed field whose value is none of
the special macros is a raw substring-prefix test — it matches exactly
the candidates that start with the stored bytes.  Hence `/usr/` matches
`/usr/bin/ls` and also matches `/usr/local2/x`, and `/usr/lib` matches
`/usr/libfoo` (no path-segment-boundary check). -/
theorem C7_plain_dir_substr (v path : String) (t : Bool)
    (h1 : v ≠ "execdirs") (h2 : v ≠ "systemdirs") (h3 : v ≠ "untrusted") :
    (obj_dir_test ⟨ODIR, v.length, some v⟩ ⟨PATH, 0, some path⟩ t = 1 ↔
      v.data <+: path.data)
    ∧ (subj_dir_test ⟨EXE_DIR, 0, some v⟩ ⟨EXE, 0, some path⟩ t = 1 ↔
      v.data <+: path.data)
    ∧ obj_dir_test ⟨ODIR, 5, some "/usr/"⟩ ⟨PATH, 0, some "/usr/bin/ls"⟩ t = 1
    ∧ obj_dir_test ⟨ODIR, 5, some "/usr/"⟩ ⟨PATH, 0, some "/usr/local2/x"⟩ t = 1
    ∧ obj_dir_test ⟨ODIR, 8, some "/usr/lib"⟩ ⟨PATH, 0, some "/usr/libfoo"⟩ t = 1 := by
  refine ⟨?_, ?_, ?_, ?_, ?_⟩
  · rw [obj_dir_test,
      if_neg (fun hc => h1 (Option.some_injective _ hc.2)),
      if_neg (fun hc => h2 (Option.some_injective _ hc.2)),
      if_neg (fun hc => h3 (Option.some_injective _ hc.2))]
    by_cases hc : cstrEqN path v v.length
    · have hpre := (cstrEqN_pref_iff path v v.length rfl).mp hc
      rw [if_neg (fun hcon => hcon.2 hc)]
      simp [hpre]
    · have hnpre : ¬v.data <+: path.data :=
        fun hq => hc ((cstrEqN_pref_iff path v v.length rfl).mpr hq)
      rw [if_pos ⟨rfl, hc⟩]
      simp [hnpre]
  · rw [subj_dir_test]
    simp only [Option.getD_some]
    rw [if_neg (fun hc => h1 hc.2), if_neg (fun hc => h2 hc.2),
      if_neg (fun hc => h3 hc.2)]
    by_cases hc : cstrEqN path v v.length
    · have hpre := (cstrEqN_pref_iff path v v.length rfl).mp hc
      rw [if_neg (fun hcon => hcon hc)]
      simp [hpre]
    · have hnpre : ¬v.data <+: path.data :=
        fun hq => hc ((cstrEqN_pref_iff path v v.length rfl).mpr hq)
      rw [if_pos hc]
      simp [hnpre]
  · cases t <;> decide
  · cases t <;> decide
  · cases t <;> decide

/-- Closed instance of claim C7's amended theorem at `/usr/` against
`/usr/bin/ls`, hypotheses discharged by computation. -/
theorem C7_witness :
    obj_dir_test ⟨ODIR, ("/usr/" : String).length, some "/usr/"⟩
        ⟨PATH, 0, some "/usr/bin/ls"⟩ false = 1
      ↔ "/usr/".data <+: "/usr/bin/ls".data :=
  (C7_plain_dir_substr "/usr/" "/usr/bin/ls" false (by decide) (by decide)
    (by decide)).1

/-- Claim C8: the `execdirs` macro matches exactly the candidates
starting with one of the fixed system binary directories excluding
`/etc/`, and `systemdirs` those starting with a directory of the same
list including `/etc/`; `/etc/passwd` matches systemdirs but not
execdirs, `/usr/bin/ls` matches both. -/
theorem C8_dir_macros (path : String) (t : Bool) :
    (obj_dir_test ⟨ODIR, 8, some "execdirs"⟩ ⟨PATH, 0, some path⟩ t = 1 ↔
      ("/usr/".data <+: path.data ∨ "/bin/".data <+: path.data ∨
       "/sbin/".data <+: path.data ∨ "/lib/".data <+: path.data ∨
       "/lib64/".data <+: path.data ∨ "/usr/libexec/".data <+: path.data))
    ∧ (obj_dir_test ⟨ODIR, 10, some "systemdirs"⟩ ⟨PATH, 0, some path⟩ t = 1 ↔
      ("/etc/".data <+: path.data ∨ "/usr/".data <+: path.data ∨
       "/bin/".data <+: path.data ∨ "/sbin/".data <+: path.data ∨
       "/lib/".data <+: path.data ∨ "/lib64/".data <+: path.data ∨
       "/usr/libexec/".data <+: path.data))
    ∧ obj_dir_test ⟨ODIR, 10, some "systemdirs"⟩ ⟨PATH, 0, some "/etc/passwd"⟩ t = 1
    ∧ obj_dir_test ⟨ODIR, 8, some "execdirs"⟩ ⟨PATH, 0, some "/etc/passwd"⟩ t = 0
    ∧ obj_dir_test ⟨ODIR, 8, some "execdirs"⟩ ⟨PATH, 0, some "/usr/bin/ls"⟩ t = 1
    ∧ obj_dir_test ⟨ODIR, 10, some "systemdirs"⟩ ⟨PATH, 0, some "/usr/bin/ls"⟩ t = 1 := by
  refine ⟨?_, ?_, ?_, ?_, ?_, ?_⟩
  · rw [obj_dir_test, if_pos ⟨rfl, rfl⟩]
    exact check_dirs_one_iff path
  · rw [obj_dir_test, if_neg (fun hc => absurd hc.1 (by decide)),
      if_pos ⟨rfl, rfl⟩]
    exact check_dirs_zero_iff path
  · cases t <;> decide
  · cases t <;> decide
  · cases t <;> decide
  · cases t <;> decide
